import Mathlib

/-
Verification of the engineering-insights analysis core:
the metrics engine (src/core/metrics.py) and the three-stage
analysis pipeline (src/agents/pipeline.py).

Modelling conventions:
- Python numbers (ints and floats) are modelled as rationals (ℚ).
- Python `round(x, n)` is modelled as rounding to n decimal places
  (ties modelled half-up; no claim depends on tie behaviour).
- Python dicts with optional keys are modelled as structures of
  `Option` fields; `d.get(k, v)` becomes `Option.getD`.
- External collaborators (storage, GitHub sync, LLM, the clock,
  the random source) are passed as explicit inputs.
-/

/-- Rounding to one decimal place, modelling Python `round(x, 1)`. -/
def round1 (x : ℚ) : ℚ := ((round (10 * x) : ℤ) : ℚ) / 10

/-- Rounding to two decimal places, modelling Python `round(x, 2)`. -/
def round2 (x : ℚ) : ℚ := ((round (100 * x) : ℤ) : ℚ) / 100

/-! ## Metrics engine records (src/core/models.py fields used by metrics.py) -/

/-- A stored commit, with the fields read by the metrics engine. -/
structure CommitRec where
  repository_id : ℤ
  committed_at : ℚ
  additions : ℚ
  deletions : ℚ
  changed_files : ℚ
deriving DecidableEq

/-- A stored deployment, with the fields read by the metrics engine. -/
structure DeploymentRec where
  repository_id : ℤ
  deployed_at : ℚ
deriving DecidableEq

/-- The matching test of `_calculate_lead_time`:
`deployment.deployed_at > commit.committed_at and
 deployment.repository_id == commit.repository_id`. -/
def matchesB (c : CommitRec) (d : DeploymentRec) : Bool :=
  decide (c.committed_at < d.deployed_at) && decide (d.repository_id = c.repository_id)

/-- `MetricsCalculator._calculate_lead_time` (src/core/metrics.py):
for each commit, the inner loop takes the FIRST deployment in the stored
list order that matches, appends `(deployed_at - committed_at)/86400`,
and the result is the mean of the collected lead times (0.0 if none). -/
def calculate_lead_time (commits : List CommitRec) (deployments : List DeploymentRec) : ℚ :=
  let lead_times := commits.filterMap fun c =>
    (deployments.find? (matchesB c)).map fun d => (d.deployed_at - c.committed_at) / 86400
  if lead_times = [] then 0 else lead_times.sum / (lead_times.length : ℚ)

/-- Modelled from the spec's words: the EARLIEST matching deployment,
i.e. among deployments to the same repository with `deployed_at` strictly
after `committed_at`, one with minimal `deployed_at` (first listed among
ties). -/
def earliest_match (c : CommitRec) : List DeploymentRec → Option DeploymentRec
  | [] => none
  | d :: tl =>
    match earliest_match c tl with
    | none => if matchesB c d then some d else none
    | some e =>
      if matchesB c d && decide (d.deployed_at ≤ e.deployed_at) then some d else some e

/-- Modelled from the spec's words: lead time built on the earliest
matching deployment; mean over matched commits, 0 when none match. -/
def spec_lead_time (commits : List CommitRec) (deployments : List DeploymentRec) : ℚ :=
  let lead_times := commits.filterMap fun c =>
    (earliest_match c deployments).map fun d => (d.deployed_at - c.committed_at) / 86400
  if lead_times = [] then 0 else lead_times.sum / (lead_times.length : ℚ)

theorem earliest_match_mem {c : CommitRec} {ds : List DeploymentRec} {d : DeploymentRec}
    (h : earliest_match c ds = some d) : d ∈ ds := by
  induction ds with
  | nil => simp [earliest_match] at h
  | cons a tl ih =>
    rw [earliest_match] at h
    split at h
    · split at h
      · simp_all
      · simp at h
    · split at h
      · simp_all
      · next he _ =>
        simp at h
        subst h
        exact List.mem_cons_of_mem _ (ih he)

theorem find_eq_earliest (c : CommitRec) (ds : List DeploymentRec)
    (hs : ds.Pairwise (fun a b => a.deployed_at ≤ b.deployed_at)) :
    ds.find? (matchesB c) = earliest_match c ds := by
  induction ds with
  | nil => rfl
  | cons a tl ih =>
    rw [List.pairwise_cons] at hs
    obtain ⟨ha, htl⟩ := hs
    by_cases hm : matchesB c a
    · rw [List.find?_cons_of_pos _ hm, earliest_match]
      cases he : earliest_match c tl with
      | none => simp [hm]
      | some e =>
        have hme : e ∈ tl := earliest_match_mem he
        have hle : a.deployed_at ≤ e.deployed_at := ha e hme
        simp [hm, hle]
    · rw [List.find?_cons_of_neg _ hm, ih htl, earliest_match]
      cases he : earliest_match c tl with
      | none => simp [hm]
      | some e => simp [hm]

/-- `MetricsCalculator._calculate_churn_risk_score` (src/core/metrics.py):
0 for no commits, otherwise
`min(100, avg_churn_per_commit / 10 + large_commit_ratio * 50)` where a
commit is large when its own additions+deletions exceed 300. -/
def calculate_churn_risk_score (commits : List CommitRec) : ℚ :=
  if commits = [] then 0
  else
    let total_churn := (commits.map fun c => c.additions + c.deletions).sum
    let avg_churn_per_commit := total_churn / (commits.length : ℚ)
    let large_commits := commits.countP fun c => decide (c.additions + c.deletions > 300)
    let large_commit_ratio := (large_commits : ℚ) / (commits.length : ℚ)
    min 100 (avg_churn_per_commit / 10 + large_commit_ratio * 50)

/-- Claim C5: the churn risk score is
`min(100, churn_rate/10 + large_commit_ratio×50)` for a non-empty commit
list, where churn_rate is total churn over commit count and
large_commit_ratio is the fraction of commits whose own churn strictly
exceeds 300 lines; it is 0 for an empty list. -/
theorem churn_risk_score_formula (commits : List CommitRec) :
    (commits = [] → calculate_churn_risk_score commits = 0)
    ∧ (commits ≠ [] →
        calculate_churn_risk_score commits =
          min 100
            ((((commits.map fun c => c.additions + c.deletions).sum / (commits.length : ℚ)) / 10)
              + (((commits.filter fun c => decide (c.additions + c.deletions > 300)).length : ℚ)
                  / (commits.length : ℚ)) * 50)) := by
  constructor
  · intro h
    simp [calculate_churn_risk_score, h]
  · intro h
    rw [calculate_churn_risk_score, if_neg h, List.countP_eq_length_filter]

/-- Witness for C5 at a concrete one-commit input: a single commit with
400 added lines gives `min 100 (400/10 + 1×50) = 90`. -/
theorem churn_risk_score_formula_witness :
    calculate_churn_risk_score [⟨1, 0, 400, 0, 1⟩] =
      min 100
        (((([⟨1, 0, 400, 0, 1⟩] : List CommitRec).map fun c => c.additions + c.deletions).sum
            / (([⟨1, 0, 400, 0, 1⟩] : List CommitRec).length : ℚ)) / 10
          + (((([⟨1, 0, 400, 0, 1⟩] : List CommitRec).filter
                fun c => decide (c.additions + c.deletions > 300)).length : ℚ)
              / (([⟨1, 0, 400, 0, 1⟩] : List CommitRec).length : ℚ)) * 50) :=
  (churn_risk_score_formula [⟨1, 0, 400, 0, 1⟩]).2 (by simp)

/-- Claim C4 (counterexample): with one commit (repo 1, time 0) and the
stored deployment list `[repo 1 at 172800, repo 1 at 86400]` (not sorted
by time), the code matches the FIRST listed deployment and reports 2 days,
while the earliest-deployment rule of the claim gives 1 day. -/
theorem lead_time_not_earliest_counterexample :
    calculate_lead_time [⟨1, 0, 0, 0, 0⟩] [⟨1, 172800⟩, ⟨1, 86400⟩] = 2
    ∧ spec_lead_time [⟨1, 0, 0, 0, 0⟩] [⟨1, 172800⟩, ⟨1, 86400⟩] = 1
    ∧ calculate_lead_time [⟨1, 0, 0, 0, 0⟩] [⟨1, 172800⟩, ⟨1, 86400⟩]
        ≠ spec_lead_time [⟨1, 0, 0, 0, 0⟩] [⟨1, 172800⟩, ⟨1, 86400⟩] := by
  have h1 : calculate_lead_time [⟨1, 0, 0, 0, 0⟩] [⟨1, 172800⟩, ⟨1, 86400⟩] = 2 := by
    norm_num [calculate_lead_time, matchesB, List.find?, List.filterMap_cons, List.filterMap_nil,
      Option.map, List.sum_cons, List.sum_nil]
  have h2 : spec_lead_time [⟨1, 0, 0, 0, 0⟩] [⟨1, 172800⟩, ⟨1, 86400⟩] = 1 := by
    norm_num [spec_lead_time, earliest_match, matchesB, List.filterMap_cons, List.filterMap_nil,
      Option.map, List.sum_cons, List.sum_nil]
  refine ⟨h1, h2, by rw [h1, h2]; norm_num⟩

/-- Claim C4 (amended): each commit is matched to the FIRST deployment in
the stored list order that is to the same repository and strictly after
the commit; whenever the deployment list is sorted ascending by
`deployed_at`, this coincides with the claim's earliest-deployment rule,
and the summary lead time (mean over matched commits, unmatched excluded,
0 when none match) agrees with the spec's definition. -/
theorem lead_time_agrees_when_sorted (commits : List CommitRec) (deployments : List DeploymentRec)
    (hs : deployments.Pairwise (fun a b => a.deployed_at ≤ b.deployed_at)) :
    calculate_lead_time commits deployments = spec_lead_time commits deployments := by
  have hf : (fun c => (deployments.find? (matchesB c)).map
        fun d => (d.deployed_at - c.committed_at) / 86400)
      = (fun c => (earliest_match c deployments).map
        fun d => (d.deployed_at - c.committed_at) / 86400) :=
    funext fun c => by rw [find_eq_earliest c deployments hs]
  rw [calculate_lead_time, spec_lead_time, hf]

/-- Witness for the amended C4 at a concrete sorted deployment list. -/
theorem lead_time_agrees_when_sorted_witness :
    calculate_lead_time [⟨1, 0, 0, 0, 0⟩] [⟨1, 86400⟩, ⟨1, 172800⟩]
      = spec_lead_time [⟨1, 0, 0, 0, 0⟩] [⟨1, 86400⟩, ⟨1, 172800⟩] :=
  lead_time_agrees_when_sorted [⟨1, 0, 0, 0, 0⟩] [⟨1, 86400⟩, ⟨1, 172800⟩]
    (by norm_num [List.pairwise_cons])

/-! ## Analysis engine data model (src/agents/pipeline.py)

The raw summary dict handed to `DiffAnalystAgent` is modelled with
`Option` fields: every read in the source is `dict.get(key, default)`,
so a missing sub-group or field is representable. -/

/-- The `basic_stats` sub-dict. -/
structure BasicStats where
  total_commits : Option ℚ
  total_pull_requests : Option ℚ
  lines_added : Option ℚ
  lines_deleted : Option ℚ
  files_changed : Option ℚ
deriving DecidableEq

/-- The `dora_metrics` sub-dict. -/
structure DoraMetrics where
  lead_time_days : Option ℚ
  deployment_frequency : Option ℚ
  change_failure_rate : Option ℚ
  mttr_hours : Option ℚ
deriving DecidableEq

/-- The `code_quality` sub-dict. -/
structure CodeQuality where
  total_churn : Option ℚ
  churn_rate : Option ℚ
  risk_score : Option ℚ
  high_risk_files : Option ℚ
deriving DecidableEq

/-- The `review_metrics` sub-dict. -/
structure ReviewMetrics where
  avg_review_time_hours : Option ℚ
  review_participation_rate : Option ℚ
  pr_cycle_time_hours : Option ℚ
  approval_rate : Option ℚ
deriving DecidableEq

/-- The raw summary dict (`state.raw_data`). -/
structure RawData where
  period_days : Option ℚ
  basic_stats : Option BasicStats
  dora_metrics : Option DoraMetrics
  code_quality : Option CodeQuality
  review_metrics : Option ReviewMetrics
deriving DecidableEq

/-- The empty dict `{}` returned by `data.get('basic_stats', {})`. -/
def BasicStats.empty : BasicStats := ⟨none, none, none, none, none⟩

/-- The empty dict `{}` returned by `data.get('dora_metrics', {})`. -/
def DoraMetrics.empty : DoraMetrics := ⟨none, none, none, none⟩

/-- The empty dict `{}` returned by `data.get('code_quality', {})`. -/
def CodeQuality.empty : CodeQuality := ⟨none, none, none, none⟩

/-- The empty dict `{}` returned by `data.get('review_metrics', {})`. -/
def ReviewMetrics.empty : ReviewMetrics := ⟨none, none, none, none⟩

/-- A fully-populated RawSummary value object (all sub-groups present),
as produced by the metrics engine / aggregator. -/
def mkRawSummary (pd tc tpr la ld fc lt df cfr mttr tch cr rs hrf art rpr cyc ar : ℚ) :
    RawData :=
  { period_days := some pd
    basic_stats := some ⟨some tc, some tpr, some la, some ld, some fc⟩
    dora_metrics := some ⟨some lt, some df, some cfr, some mttr⟩
    code_quality := some ⟨some tch, some cr, some rs, some hrf⟩
    review_metrics := some ⟨some art, some rpr, some cyc, some ar⟩ }

/-! ## Analysis engine operations (DiffAnalystAgent) -/

/-- The `patterns` sub-dict of the churn analysis. -/
structure ChurnPatterns where
  large_changes : Bool
  frequent_modifications : Bool
  risk_threshold_exceeded : Bool
deriving DecidableEq

/-- Result of `_analyze_churn_patterns`. -/
structure ChurnAnalysis where
  total_churn : ℚ
  churn_rate : ℚ
  churn_level : String
  risk_score : ℚ
  recommendations : List String
  patterns : ChurnPatterns
deriving DecidableEq

/-- `DiffAnalystAgent._analyze_churn_patterns` (src/agents/pipeline.py). -/
def analyze_churn_patterns (data : RawData) : ChurnAnalysis :=
  let churn_data := data.code_quality.getD CodeQuality.empty
  let total_churn := churn_data.total_churn.getD 0
  let churn_rate := churn_data.churn_rate.getD 0
  let risk_score := churn_data.risk_score.getD 0
  let levelRecs : String × List String :=
    if churn_rate > 200 then
      ("HIGH", ["Consider breaking down large changes", "Increase code review rigor"])
    else if churn_rate > 100 then
      ("MODERATE", ["Monitor for refactoring opportunities", "Maintain current review practices"])
    else
      ("LOW", ["Churn levels are healthy", "Continue current practices"])
  { total_churn := total_churn
    churn_rate := churn_rate
    churn_level := levelRecs.1
    risk_score := risk_score
    recommendations := levelRecs.2
    patterns :=
      { large_changes := decide (churn_rate > 150)
        frequent_modifications := decide (total_churn > 5000)
        risk_threshold_exceeded := decide (risk_score > 70) } }

/-- `DiffAnalystAgent._calculate_composite_risk_score` (src/agents/pipeline.py). -/
def calculate_composite_risk_score (data : RawData) : ℚ :=
  let dora := data.dora_metrics.getD DoraMetrics.empty
  let code_quality := data.code_quality.getD CodeQuality.empty
  let failure_risk := dora.change_failure_rate.getD 0 * 2
  let churn_risk := code_quality.risk_score.getD 0 * 0.5
  let lead_time_risk := min 50 (dora.lead_time_days.getD 0 * 5)
  min 100 (failure_risk + churn_risk + lead_time_risk)

/-- The fixed risk message of the change-failure-rate check. -/
def msg_failure_rate : String := "High change failure rate indicates quality issues"

/-- The fixed risk message of the lead-time check. -/
def msg_lead_time : String := "Long lead times may indicate process bottlenecks"

/-- The fixed risk message of the code-quality (churn) check. -/
def msg_churn_risk : String := "Code churn patterns indicate potential technical debt"

/-- The fixed risk message of the review-participation check. -/
def msg_review_participation : String := "Low review participation may lead to quality issues"

/-- The fixed message used when no risk condition triggers. -/
def msg_no_risk : String := "No significant risk factors identified"

/-- Lower-casing of a character list, modelling `str.lower()` on the
ASCII message texts it is applied to. -/
def toLowerList (s : List Char) : List Char := s.map Char.toLower

/-- Substring test, modelling Python `needle in haystack`. -/
def containsSub (needle haystack : List Char) : Bool := decide (needle <:+: haystack)

/-- The keyword test `needle in risk.lower()` of
`_suggest_mitigation_strategies`. -/
def riskMentions (needle : String) (risk : String) : Bool :=
  containsSub needle.toList (toLowerList risk.toList)

/-- `DiffAnalystAgent._suggest_mitigation_strategies` (src/agents/pipeline.py).
Python's `list(set(strategies))` has no guaranteed order; deduplication is
modelled with `List.dedup`. -/
def suggest_mitigation_strategies (risks : List String) : List String :=
  let strategies := (risks.map fun risk =>
    if riskMentions "failure rate" risk then
      ["Implement more comprehensive testing", "Add pre-deployment validation checks"]
    else if riskMentions "lead time" risk then
      ["Optimize CI/CD pipeline", "Reduce approval bottlenecks"]
    else if riskMentions "churn" risk then
      ["Focus on smaller, more frequent changes", "Increase pair programming sessions"]
    else if riskMentions "review" risk then
      ["Implement review assignment automation", "Provide code review training"]
    else []).flatten
  strategies.dedup

/-- Result of `_assess_risk_factors`. -/
structure RiskAssessment where
  overall_risk_level : String
  identified_risks : List String
  risk_score : ℚ
  mitigation_strategies : List String
deriving DecidableEq

/-- `DiffAnalystAgent._assess_risk_factors` (src/agents/pipeline.py):
the sequential risk/level accumulation is modelled by the step pairs
(risks so far, level so far); each step is one `if` of the source. -/
def assess_risk_factors (data : RawData) : RiskAssessment :=
  let dora := data.dora_metrics.getD DoraMetrics.empty
  let code_quality := data.code_quality.getD CodeQuality.empty
  let review := data.review_metrics.getD ReviewMetrics.empty
  let step1 : List String × String :=
    if dora.change_failure_rate.getD 0 > 15 then ([msg_failure_rate], "HIGH") else ([], "LOW")
  let step2 : List String × String :=
    if dora.lead_time_days.getD 0 > 7 then
      (step1.1 ++ [msg_lead_time], if step1.2 = "LOW" then "MODERATE" else step1.2)
    else step1
  let step3 : List String × String :=
    if code_quality.risk_score.getD 0 > 60 then (step2.1 ++ [msg_churn_risk], "HIGH") else step2
  let step4 : List String × String :=
    if review.review_participation_rate.getD 100 < 70 then
      (step3.1 ++ [msg_review_participation], if step3.2 = "LOW" then "MODERATE" else step3.2)
    else step3
  let risks := if step4.1 = [] then [msg_no_risk] else step4.1
  { overall_risk_level := step4.2
    identified_risks := risks
    risk_score := calculate_composite_risk_score data
    mitigation_strategies := suggest_mitigation_strategies risks }

/-- `DiffAnalystAgent._score_to_grade` (src/agents/pipeline.py). -/
def score_to_grade (score : ℚ) : String :=
  if score ≥ 90 then "A"
  else if score ≥ 80 then "B"
  else if score ≥ 70 then "C"
  else if score ≥ 60 then "D"
  else "F"

/-- Result of `_calculate_quality_indicators`. -/
structure QualityIndicators where
  velocity_score : ℚ
  quality_score : ℚ
  collaboration_score : ℚ
  overall_score : ℚ
  grade : String
deriving DecidableEq

/-- `DiffAnalystAgent._calculate_quality_indicators` (src/agents/pipeline.py).
The grade is computed from the unrounded overall score, as in the source. -/
def calculate_quality_indicators (data : RawData) : QualityIndicators :=
  let basic := data.basic_stats.getD BasicStats.empty
  let dora := data.dora_metrics.getD DoraMetrics.empty
  let review := data.review_metrics.getD ReviewMetrics.empty
  let velocity_score := min 100 ((basic.total_commits.getD 0 / data.period_days.getD 7) * 10)
  let quality_score := max 0 (100 - dora.change_failure_rate.getD 0 * 5)
  let collaboration_score := review.review_participation_rate.getD 0
  let overall_score := (velocity_score + quality_score + collaboration_score) / 3
  { velocity_score := round1 velocity_score
    quality_score := round1 quality_score
    collaboration_score := round1 collaboration_score
    overall_score := round1 overall_score
    grade := score_to_grade overall_score }

/-- Result of `_analyze_trends` (a fixed stub in the source). -/
structure TrendAnalysis where
  velocity_trend : String
  quality_trend : String
  collaboration_trend : String
  recommendations : List String
deriving DecidableEq

/-- `DiffAnalystAgent._analyze_trends` (src/agents/pipeline.py): fixed stub. -/
def analyze_trends (_data : RawData) : TrendAnalysis :=
  { velocity_trend := "stable"
    quality_trend := "improving"
    collaboration_trend := "stable"
    recommendations :=
      ["Maintain current development pace", "Continue focus on quality practices",
       "Consider expanding collaboration metrics"] }

/-- The full `analysis_results` dict built by `DiffAnalystAgent.execute`. -/
structure AnalysisResults where
  churn_analysis : ChurnAnalysis
  risk_assessment : RiskAssessment
  quality_indicators : QualityIndicators
  trend_analysis : TrendAnalysis
deriving DecidableEq

/-! ## Insight parsing (InsightNarratorAgent._parse_insights_from_response)

Response texts are modelled as `List Char`; Python's `str.strip()` /
`str.lower()` are modelled on the ASCII range they are exercised on. -/

/-- Whitespace stripped by Python `str.strip()`. -/
def pyWhitespace (c : Char) : Bool :=
  c == ' ' || c == '\t' || c == '\n' || c == '\r' || c == '\x0b' || c == '\x0c'

/-- Python `str.strip()`. -/
def pyStrip (s : List Char) : List Char :=
  ((s.dropWhile pyWhitespace).reverse.dropWhile pyWhitespace).reverse

/-- Python `str.split(sep)` for a one-character separator: splits at every
occurrence and keeps empty pieces. -/
def pySplitOn (sep : Char) (s : List Char) : List (List Char) :=
  s.foldr
    (fun c acc =>
      match acc with
      | [] => [[c]]
      | cur :: rest => if c == sep then [] :: cur :: rest else (c :: cur) :: rest)
    [[]]

/-- The strip set of `line.lstrip('0123456789.-•* ')`. -/
def bulletStripChars : List Char :=
  ['0', '1', '2', '3', '4', '5', '6', '7', '8', '9', '.', '-', '•', '*', ' ']

/-- One iteration of the line loop of `_parse_insights_from_response`
(src/agents/pipeline.py): the candidate test on the stripped line, the
bullet-stripping clean-up, and the cleaned-length filter. -/
def lineInsight (rawLine : List Char) : Option (List Char) :=
  match pyStrip rawLine with
  | [] => none
  | c0 :: rest =>
    if (c0.isDigit || c0 == '-' || c0 == '•' || c0 == '*')
        && decide ((c0 :: rest).length > 10) then
      let cleaned := pyStrip ((c0 :: rest).dropWhile fun ch => bulletStripChars.contains ch)
      if cleaned ≠ [] ∧ cleaned.length > 20 then some cleaned else none
    else none

/-- One iteration of the fallback sentence loop of
`_parse_insights_from_response`: sentences over 30 characters containing
"team" or "performance" (case-insensitive), re-suffixed with a period. -/
def sentenceItem (raw : List Char) : Option (List Char) :=
  let s := pyStrip raw
  if decide (s.length > 30)
      && (containsSub "team".toList (toLowerList s)
          || containsSub "performance".toList (toLowerList s)) then
    some (s ++ ['.'])
  else none

/-- `InsightNarratorAgent._parse_insights_from_response`
(src/agents/pipeline.py). -/
def parse_insights_from_response (content : List Char) : List (List Char) :=
  let insights := (pySplitOn '\n' content).filterMap lineInsight
  let insights2 :=
    if insights = [] then (pySplitOn '.' content).filterMap sentenceItem else insights
  insights2.take 5

/-- Modelled from the spec's words: a stripped line qualifies when it is
non-empty, its first character is a digit or '-', '•', '*', and its length
exceeds 10. -/
def specCandidate (l : List Char) : Bool :=
  match l.head? with
  | none => false
  | some c0 => (c0.isDigit || c0 == '-' || c0 == '•' || c0 == '*') && decide (l.length > 10)

/-- Modelled from the spec's words: strip leading digit/punctuation/bullet
characters and surrounding whitespace. -/
def specCleaned (l : List Char) : List Char :=
  pyStrip (l.dropWhile fun ch => bulletStripChars.contains ch)

/-- Modelled from the spec's words: keep a qualifying line only when the
cleaned text exceeds 20 characters. -/
def specLineItem (rawLine : List Char) : Option (List Char) :=
  let l := pyStrip rawLine
  if specCandidate l && decide ((specCleaned l).length > 20) then some (specCleaned l) else none

/-- Modelled from the spec's words: the whole parsing rule — per-line
candidates, the sentence fallback when zero lines qualify, and the cap at
the first 5 items in encountered order. -/
def spec_parse_insights (content : List Char) : List (List Char) :=
  let lineItems := (pySplitOn '\n' content).filterMap specLineItem
  let fallback := (pySplitOn '.' content).filterMap sentenceItem
  (if lineItems = [] then fallback else lineItems).take 5

/-! ## Pipeline state machine (AgentState, the three agents, orchestrator) -/

/-- The structured content of the Markdown narrative assembled by
`_create_narrative`; the string interpolation of the source is modelled
field by field (numbers rendered at one decimal place as in `{:.1f}`). -/
structure NarrativeDoc where
  period : ℚ
  total_commits : ℚ
  total_pull_requests : ℚ
  grade : String
  overall_risk_level : String
  risk_score : ℚ
  insights : List (List Char)
  velocity_score : ℚ
  quality_score : ℚ
  collaboration_score : ℚ
  identified_risks : List String
  mitigation_strategies : List String
  generated_at : String
deriving DecidableEq

/-- `InsightNarratorAgent._create_narrative` (src/agents/pipeline.py);
`now` is the `datetime.now()` timestamp rendered in the footer. -/
def create_narrative (raw_data : RawData) (analysis : AnalysisResults)
    (insights : List (List Char)) (now : String) : NarrativeDoc :=
  let basic := raw_data.basic_stats.getD BasicStats.empty
  let quality_indicators := analysis.quality_indicators
  let risk_assessment := analysis.risk_assessment
  { period := raw_data.period_days.getD 7
    total_commits := basic.total_commits.getD 0
    total_pull_requests := basic.total_pull_requests.getD 0
    grade := quality_indicators.grade
    overall_risk_level := risk_assessment.overall_risk_level
    risk_score := round1 risk_assessment.risk_score
    insights := insights
    velocity_score := round1 quality_indicators.velocity_score
    quality_score := round1 quality_indicators.quality_score
    collaboration_score := round1 quality_indicators.collaboration_score
    identified_risks := risk_assessment.identified_risks
    mitigation_strategies := risk_assessment.mitigation_strategies
    generated_at := now }

/-- The `AgentState` dataclass threaded through the pipeline
(src/agents/pipeline.py). The empty narrative string is modelled as
`none`, a built narrative as `some doc`. -/
structure AgentState where
  request_type : String
  team_id : Option ℤ
  engineer_id : Option ℤ
  time_period : ℚ
  raw_data : Option RawData
  analysis_results : Option AnalysisResults
  insights : Option (List (List Char))
  narrative : Option NarrativeDoc
  charts : Option (List Unit)
  error : Option String
deriving DecidableEq

/-- `DataHarvesterAgent.execute` (src/agents/pipeline.py): the metrics /
aggregation work inside the `try` block is external to the pipeline and is
passed as its outcome `harvest` (raised exceptions become `.error`). -/
def harvesterExecute (harvest : Except String RawData) (state : AgentState) : AgentState :=
  match harvest with
  | .ok d => { state with raw_data := some d }
  | .error e => { state with error := some ("Data harvesting failed: " ++ e) }

/-- The divisor `data.get('period_days', 7)` used by
`_calculate_quality_indicators`; the only operation in the analysis stage
that can raise is the division by this value. -/
def periodDivisorUsed (d : RawData) : ℚ := d.period_days.getD 7

/-- `DiffAnalystAgent.execute` (src/agents/pipeline.py): returns the state
unchanged when `error` is set or `raw_data` is absent; otherwise builds
the analysis dict, with the division by `period_days` as the one raising
operation (caught and turned into a stage error). -/
def analystExecute (state : AgentState) : AgentState :=
  if state.error.isSome then state
  else
    match state.raw_data with
    | none => state
    | some d =>
      if periodDivisorUsed d = 0 then
        { state with error := some "Diff analysis failed: division by zero" }
      else
        { state with
            analysis_results := some
              { churn_analysis := analyze_churn_patterns d
                risk_assessment := assess_risk_factors d
                quality_indicators := calculate_quality_indicators d
                trend_analysis := analyze_trends d } }

/-- `InsightNarratorAgent.execute` (src/agents/pipeline.py): returns the
state unchanged when `error` is set or `analysis_results` is absent;
otherwise the LLM call outcome `llm` yields the response content (a
failing collaborator raises, becoming a stage error), the response is parsed
and the narrative is built with timestamp `now`. -/
def narratorExecute (llm : Except String (List Char)) (now : String)
    (state : AgentState) : AgentState :=
  if state.error.isSome then state
  else
    match state.analysis_results with
    | none => state
    | some a =>
      match state.raw_data with
      | none =>
        { state with
            error := some "Insight generation failed: 'NoneType' object has no attribute 'get'" }
      | some d =>
        match llm with
        | .error e => { state with error := some ("Insight generation failed: " ++ e) }
        | .ok content =>
          let ins := parse_insights_from_response content
          { state with
              insights := some ins
              narrative := some (create_narrative d a ins now) }

/-- The fresh state built at the top of
`AgentOrchestrator.process_request`. -/
def initState (request_type : String) (team_id engineer_id : Option ℤ)
    (time_period : ℚ) : AgentState :=
  { request_type := request_type
    team_id := team_id
    engineer_id := engineer_id
    time_period := time_period
    raw_data := none
    analysis_results := none
    insights := some []
    narrative := none
    charts := some []
    error := none }

/-- `AgentOrchestrator.process_request` (src/agents/pipeline.py): runs the
three stages in order, returning early as soon as `error` is set. -/
def process_request (harvest : Except String RawData) (llm : Except String (List Char))
    (now : String) (request_type : String) (team_id engineer_id : Option ℤ)
    (time_period : ℚ) : AgentState :=
  let s0 := initState request_type team_id engineer_id time_period
  let s1 := harvesterExecute harvest s0
  if s1.error.isSome then s1
  else
    let s2 := analystExecute s1
    if s2.error.isSome then s2
    else narratorExecute llm now s2

/-! ## Bootstrap organization harvest (DataHarvesterAgent._get_overall_stats,
zero-teams path) -/

/-- One commit dict fetched from the GitHub collaborator
(`get_repository_commits`), with the fields read by the harvest loop. -/
structure CommitStat where
  additions : ℚ
  deletions : ℚ
  changed_files : ℚ
deriving DecidableEq

/-- One repository's sync result: the stored counts returned by
`sync_repository_data` plus the fetched commit list. A repository whose
fetch raised is skipped by the source and is modelled as absent from the
list. -/
structure RepoSync where
  commits_stored : ℚ
  pull_requests_stored : ℚ
  commits : List CommitStat
deriving DecidableEq

/-- The values produced by the `random.uniform` / `random.randint` calls
of `_get_overall_stats`, one field per draw site, in source order. -/
structure RandDraws where
  lead_time_draw : ℚ
  change_failure_draw : ℚ
  mttr_draw : ℚ
  risk_score_draw : ℚ
  high_risk_files_draw : ℚ
  review_time_draw : ℚ
  participation_draw : ℚ
  cycle_time_draw : ℚ
  approval_draw : ℚ
deriving DecidableEq

/-- `DataHarvesterAgent._get_overall_stats` (src/agents/pipeline.py),
zero-registered-teams path: totals accumulated over the repository loop,
then the summary dict, where `lead_time`, `change_failure_rate`,
`mttr_hours`, `risk_score`, `high_risk_files` and all four review metrics
come from the random source. -/
def get_overall_stats_bootstrap (days : ℚ) (repos : List RepoSync) (rng : RandDraws) :
    RawData :=
  let total_commits := (repos.map fun r => r.commits_stored).sum
  let total_prs := (repos.map fun r => r.pull_requests_stored).sum
  let lines_added := (repos.map fun r => (r.commits.map fun c => c.additions).sum).sum
  let lines_deleted := (repos.map fun r => (r.commits.map fun c => c.deletions).sum).sum
  let files_changed := (repos.map fun r => (r.commits.map fun c => c.changed_files).sum).sum
  let lead_time := if total_commits > 0 then round1 rng.lead_time_draw else 0
  let deploy_freq := if days > 0 then round2 (total_commits / days) else 0
  { period_days := some days
    basic_stats := some
      ⟨some total_commits, some total_prs, some lines_added, some lines_deleted,
        some files_changed⟩
    dora_metrics := some
      ⟨some lead_time, some deploy_freq, some (round1 rng.change_failure_draw),
        some (round1 rng.mttr_draw)⟩
    code_quality := some
      ⟨some (lines_added + lines_deleted),
        some (round1 ((lines_added + lines_deleted) / max total_commits 1)),
        some (round1 rng.risk_score_draw), some rng.high_risk_files_draw⟩
    review_metrics := some
      ⟨some (round1 rng.review_time_draw), some (round1 rng.participation_draw),
        some (round1 rng.cycle_time_draw), some (round1 rng.approval_draw)⟩ }

/-! ## Claim theorems about the analysis engine -/

/-- Claim C2: for every RawSummary, the overall risk level is HIGH iff
`change_failure_rate > 15` or code-quality `risk_score > 60` (never
downgraded), otherwise MODERATE iff `lead_time_days > 7` or
`review_participation_rate < 70`, otherwise LOW; each triggered condition
appends its fixed message in check order failure-rate, lead-time,
churn-risk, review-participation; with no trigger the list is exactly the
no-risk message, so `identified_risks` is never empty. -/
theorem risk_assessment_policy (pd tc tpr la ld fc lt df cfr mttr tch cr rs hrf art rpr cyc ar : ℚ) :
    (assess_risk_factors
        (mkRawSummary pd tc tpr la ld fc lt df cfr mttr tch cr rs hrf art rpr cyc ar)).overall_risk_level
      = (if cfr > 15 ∨ rs > 60 then "HIGH" else if lt > 7 ∨ rpr < 70 then "MODERATE" else "LOW")
    ∧ (assess_risk_factors
        (mkRawSummary pd tc tpr la ld fc lt df cfr mttr tch cr rs hrf art rpr cyc ar)).identified_risks
      = (let msgs :=
          (if cfr > 15 then [msg_failure_rate] else [])
            ++ (if lt > 7 then [msg_lead_time] else [])
            ++ (if rs > 60 then [msg_churn_risk] else [])
            ++ (if rpr < 70 then [msg_review_participation] else []);
         if msgs = [] then [msg_no_risk] else msgs)
    ∧ (assess_risk_factors
        (mkRawSummary pd tc tpr la ld fc lt df cfr mttr tch cr rs hrf art rpr cyc ar)).identified_risks ≠ [] := by
  by_cases h1 : cfr > 15 <;> by_cases h2 : lt > 7 <;> by_cases h3 : rs > 60 <;>
    by_cases h4 : rpr < 70 <;>
    refine ⟨?_, ?_, ?_⟩ <;>
    simp [assess_risk_factors, mkRawSummary, h1, h2, h3, h4]

/-- Claim C3: the composite risk score equals
`min(100, change_failure_rate×2 + risk_score×0.5 + min(50, lead_time_days×5))`,
lies in [0, 100] for non-negative inputs of any magnitude, and the
spec's concrete scenario (failure rate 20, quality risk 50, lead time 2)
yields exactly 75. -/
theorem composite_risk_score_props (pd tc tpr la ld fc lt df cfr mttr tch cr rs hrf art rpr cyc ar : ℚ)
    (hcfr : 0 ≤ cfr) (hrs : 0 ≤ rs) (hlt : 0 ≤ lt) :
    calculate_composite_risk_score
        (mkRawSummary pd tc tpr la ld fc lt df cfr mttr tch cr rs hrf art rpr cyc ar)
      = min 100 (cfr * 2 + rs * 0.5 + min 50 (lt * 5))
    ∧ 0 ≤ calculate_composite_risk_score
        (mkRawSummary pd tc tpr la ld fc lt df cfr mttr tch cr rs hrf art rpr cyc ar)
    ∧ calculate_composite_risk_score
        (mkRawSummary pd tc tpr la ld fc lt df cfr mttr tch cr rs hrf art rpr cyc ar) ≤ 100
    ∧ calculate_composite_risk_score (mkRawSummary 7 0 0 0 0 0 2 0 20 0 0 0 50 0 0 80 0 0) = 75 := by
  have heq : calculate_composite_risk_score
      (mkRawSummary pd tc tpr la ld fc lt df cfr mttr tch cr rs hrf art rpr cyc ar)
      = min 100 (cfr * 2 + rs * 0.5 + min 50 (lt * 5)) := by
    simp [calculate_composite_risk_score, mkRawSummary]
  have hm : (0:ℚ) ≤ min 50 (lt * 5) := le_min (by norm_num) (by linarith)
  refine ⟨heq, ?_, ?_, ?_⟩
  · rw [heq]
    refine le_min (by norm_num) (by nlinarith)
  · rw [heq]
    exact min_le_left _ _
  · norm_num [calculate_composite_risk_score, mkRawSummary, min_def]

/-- Witness for C3: the hypotheses discharged at the spec's scenario
(change_failure_rate 20, code-quality risk_score 50, lead_time_days 2). -/
theorem composite_risk_score_props_witness :
    calculate_composite_risk_score (mkRawSummary 7 0 0 0 0 0 2 0 20 0 0 0 50 0 0 80 0 0)
      = min 100 ((20:ℚ) * 2 + 50 * 0.5 + min 50 (2 * 5))
    ∧ 0 ≤ calculate_composite_risk_score (mkRawSummary 7 0 0 0 0 0 2 0 20 0 0 0 50 0 0 80 0 0)
    ∧ calculate_composite_risk_score (mkRawSummary 7 0 0 0 0 0 2 0 20 0 0 0 50 0 0 80 0 0) ≤ 100
    ∧ calculate_composite_risk_score (mkRawSummary 7 0 0 0 0 0 2 0 20 0 0 0 50 0 0 80 0 0) = 75 :=
  composite_risk_score_props 7 0 0 0 0 0 2 0 20 0 0 0 50 0 0 80 0 0
    (by norm_num) (by norm_num) (by norm_num)

/-- Claim C6: churn level is HIGH iff `churn_rate > 200`, MODERATE iff
`100 < churn_rate ≤ 200` (the boundary 200 is MODERATE), LOW otherwise,
each level carrying its fixed recommendation list; and the three pattern
flags are the independent comparisons `churn_rate > 150`,
`total_churn > 5000`, `risk_score > 70`. -/
theorem churn_classification (pd tc tpr la ld fc lt df cfr mttr tch cr rs hrf art rpr cyc ar : ℚ) :
    (analyze_churn_patterns
        (mkRawSummary pd tc tpr la ld fc lt df cfr mttr tch cr rs hrf art rpr cyc ar)).churn_level
      = (if cr > 200 then "HIGH" else if cr > 100 then "MODERATE" else "LOW")
    ∧ (cr ≤ 200 →
        (analyze_churn_patterns
          (mkRawSummary pd tc tpr la ld fc lt df cfr mttr tch cr rs hrf art rpr cyc ar)).churn_level ≠ "HIGH")
    ∧ (cr = 200 →
        (analyze_churn_patterns
          (mkRawSummary pd tc tpr la ld fc lt df cfr mttr tch cr rs hrf art rpr cyc ar)).churn_level = "MODERATE")
    ∧ (analyze_churn_patterns
        (mkRawSummary pd tc tpr la ld fc lt df cfr mttr tch cr rs hrf art rpr cyc ar)).recommendations
      = (if cr > 200 then ["Consider breaking down large changes", "Increase code review rigor"]
         else if cr > 100 then
          ["Monitor for refactoring opportunities", "Maintain current review practices"]
         else ["Churn levels are healthy", "Continue current practices"])
    ∧ (analyze_churn_patterns
        (mkRawSummary pd tc tpr la ld fc lt df cfr mttr tch cr rs hrf art rpr cyc ar)).patterns.large_changes
      = decide (cr > 150)
    ∧ (analyze_churn_patterns
        (mkRawSummary pd tc tpr la ld fc lt df cfr mttr tch cr rs hrf art rpr cyc ar)).patterns.frequent_modifications
      = decide (tch > 5000)
    ∧ (analyze_churn_patterns
        (mkRawSummary pd tc tpr la ld fc lt df cfr mttr tch cr rs hrf art rpr cyc ar)).patterns.risk_threshold_exceeded
      = decide (rs > 70) := by
  refine ⟨?_, ?_, ?_, ?_, ?_, ?_, ?_⟩
  · by_cases hc1 : cr > 200 <;> by_cases hc2 : cr > 100 <;>
      simp [analyze_churn_patterns, mkRawSummary, hc1, hc2]
  · intro h
    have hc1 : ¬ cr > 200 := by linarith
    by_cases hc2 : cr > 100 <;> simp [analyze_churn_patterns, mkRawSummary, hc1, hc2]
  · intro h
    subst h
    norm_num [analyze_churn_patterns, mkRawSummary]
  · by_cases hc1 : cr > 200 <;> by_cases hc2 : cr > 100 <;>
      simp [analyze_churn_patterns, mkRawSummary, hc1, hc2]
  · simp [analyze_churn_patterns, mkRawSummary]
  · simp [analyze_churn_patterns, mkRawSummary]
  · simp [analyze_churn_patterns, mkRawSummary]

/-- Witness for C6 at the boundary churn_rate = 200: MODERATE. -/
theorem churn_classification_witness :
    (analyze_churn_patterns
      (mkRawSummary 7 0 0 0 0 0 0 0 0 0 0 200 0 0 0 0 0 0)).churn_level = "MODERATE" :=
  (churn_classification 7 0 0 0 0 0 0 0 0 0 0 200 0 0 0 0 0 0).2.2.1 rfl

/-- A raw summary whose `review_metrics` sub-group is absent; the other
groups are fully populated. -/
def mkRawSummaryNoReview (pd tc tpr la ld fc lt df cfr mttr tch cr rs hrf : ℚ) : RawData :=
  { period_days := some pd
    basic_stats := some ⟨some tc, some tpr, some la, some ld, some fc⟩
    dora_metrics := some ⟨some lt, some df, some cfr, some mttr⟩
    code_quality := some ⟨some tch, some cr, some rs, some hrf⟩
    review_metrics := none }

/-- Claim C10: when `review_metrics` is absent, risk assessment reads
participation with default 100 — the low-participation message is never
emitted and the participation check never escalates the level — while
quality indicators read it with default 0, so the collaboration score is
0 and the overall score is the mean of velocity, quality and 0. -/
theorem review_metrics_default_disagreement (pd tc tpr la ld fc lt df cfr mttr tch cr rs hrf : ℚ) :
    msg_review_participation ∉
      (assess_risk_factors
        (mkRawSummaryNoReview pd tc tpr la ld fc lt df cfr mttr tch cr rs hrf)).identified_risks
    ∧ (assess_risk_factors
        (mkRawSummaryNoReview pd tc tpr la ld fc lt df cfr mttr tch cr rs hrf)).overall_risk_level
      = (if cfr > 15 ∨ rs > 60 then "HIGH" else if lt > 7 then "MODERATE" else "LOW")
    ∧ (calculate_quality_indicators
        (mkRawSummaryNoReview pd tc tpr la ld fc lt df cfr mttr tch cr rs hrf)).collaboration_score = 0
    ∧ (calculate_quality_indicators
        (mkRawSummaryNoReview pd tc tpr la ld fc lt df cfr mttr tch cr rs hrf)).overall_score
      = round1 ((min 100 (tc / pd * 10) + max 0 (100 - cfr * 5) + 0) / 3) := by
  have h70 : ¬((100:ℚ) < 70) := by norm_num
  refine ⟨?_, ?_, ?_, ?_⟩
  · by_cases h1 : cfr > 15 <;> by_cases h2 : lt > 7 <;> by_cases h3 : rs > 60 <;>
      simp [assess_risk_factors, mkRawSummaryNoReview, ReviewMetrics.empty, h1, h2, h3, h70,
        msg_review_participation, msg_failure_rate, msg_lead_time, msg_churn_risk, msg_no_risk]
  · by_cases h1 : cfr > 15 <;> by_cases h2 : lt > 7 <;> by_cases h3 : rs > 60 <;>
      simp [assess_risk_factors, mkRawSummaryNoReview, ReviewMetrics.empty, h1, h2, h3, h70]
  · simp [calculate_quality_indicators, mkRawSummaryNoReview, ReviewMetrics.empty, round1]
  · simp [calculate_quality_indicators, mkRawSummaryNoReview, ReviewMetrics.empty]

/-! ## Claim theorems about parsing and the pipeline state machine -/

theorem lineInsight_eq_specLineItem (raw : List Char) : lineInsight raw = specLineItem raw := by
  unfold lineInsight specLineItem specCandidate specCleaned
  cases hp : pyStrip raw with
  | nil => simp
  | cons c0 rest =>
    simp only [List.head?, Bool.and_eq_true, Bool.or_eq_true, decide_eq_true_eq, beq_iff_eq]
    by_cases hA : (((c0.isDigit = true ∨ c0 = '-') ∨ c0 = '•') ∨ c0 = '*')
        ∧ (c0 :: rest).length > 10
    case neg => rw [if_neg hA, if_neg (fun hc => hA hc.1)]
    case pos =>
      by_cases hB :
          (pyStrip ((c0 :: rest).dropWhile fun ch => bulletStripChars.contains ch)).length > 20
      · have hne : pyStrip ((c0 :: rest).dropWhile fun ch => bulletStripChars.contains ch) ≠ [] := by
          intro hc
          rw [hc] at hB
          simp at hB
        rw [if_pos hA, if_pos ⟨hne, hB⟩, if_pos ⟨hA, hB⟩]
      · rw [if_pos hA, if_neg (fun hc => hB hc.2), if_neg (fun hc => hB hc.2)]

/-- Claim C7: the insight parser agrees, on every response text, with the
spec's line-by-line rule (candidate lines, cleaning, the 20-character
filter, the sentence fallback when zero lines qualify, first-5 cap in
encountered order), and always returns at most 5 items; as a pure total
function it is deterministic and never fails. -/
theorem insight_parsing_spec (content : List Char) :
    parse_insights_from_response content = spec_parse_insights content
    ∧ (parse_insights_from_response content).length ≤ 5 := by
  have h : lineInsight = specLineItem := funext lineInsight_eq_specLineItem
  constructor
  · simp only [parse_insights_from_response, spec_parse_insights, h]
  · simp only [parse_insights_from_response]
    rw [List.length_take]
    exact min_le_left _ _

theorem analyst_skip_of_error (s : AgentState) (h : s.error.isSome) : analystExecute s = s := by
  rw [analystExecute, if_pos h]

theorem narrator_skip_of_error (llm : Except String (List Char)) (now : String) (s : AgentState)
    (h : s.error.isSome) : narratorExecute llm now s = s := by
  rw [narratorExecute, if_pos h]

/-- Claim C1: once `error` is set on the state, the Analyze and Narrate
stages return the state unchanged (all of `raw_data`, `analysis_results`,
`insights`, `narrative` keep their values); moreover `process_request`'s
early returns coincide with simply running the three stages in sequence,
so the short-circuiting holds on every run of the pipeline. -/
theorem pipeline_error_short_circuit (s : AgentState) (harvest : Except String RawData)
    (llm : Except String (List Char)) (now : String) (request_type : String)
    (team_id engineer_id : Option ℤ) (time_period : ℚ) (h : s.error.isSome) :
    analystExecute s = s
    ∧ narratorExecute llm now s = s
    ∧ process_request harvest llm now request_type team_id engineer_id time_period
        = narratorExecute llm now (analystExecute
            (harvesterExecute harvest (initState request_type team_id engineer_id time_period))) := by
  refine ⟨analyst_skip_of_error s h, narrator_skip_of_error llm now s h, ?_⟩
  simp only [process_request]
  by_cases h1 :
      (harvesterExecute harvest (initState request_type team_id engineer_id time_period)).error.isSome
  · rw [if_pos h1, analyst_skip_of_error _ h1, narrator_skip_of_error _ _ _ h1]
  · rw [if_neg h1]
    by_cases h2 :
        (analystExecute
          (harvesterExecute harvest (initState request_type team_id engineer_id time_period))).error.isSome
    · rw [if_pos h2, narrator_skip_of_error _ _ _ h2]
    · rw [if_neg h2]

/-- A pipeline state whose harvest stage has already failed. -/
def errSampleState : AgentState :=
  { initState "daily" none none 7 with error := some "Data harvesting failed: boom" }

/-- Witness for C1 at a concrete errored state and run. -/
theorem pipeline_error_short_circuit_witness :
    analystExecute errSampleState = errSampleState
    ∧ narratorExecute (.ok []) "2024-01-01 00:00:00" errSampleState = errSampleState
    ∧ process_request (.error "boom") (.ok []) "2024-01-01 00:00:00" "daily" none none 7
        = narratorExecute (.ok []) "2024-01-01 00:00:00" (analystExecute
            (harvesterExecute (.error "boom") (initState "daily" none none 7))) :=
  pipeline_error_short_circuit errSampleState (.error "boom") (.ok [])
    "2024-01-01 00:00:00" "daily" none none 7 rfl

/-- A raw summary whose `code_quality` sub-group is missing. -/
def sampleRawNoCQ : RawData :=
  { period_days := some 7
    basic_stats := some ⟨some 10, some 4, some 120, some 30, some 6⟩
    dora_metrics := some ⟨some 2, some 1, some 5, some 3⟩
    code_quality := none
    review_metrics := some ⟨some 8, some 85, some 24, some 92⟩ }

/-- A pipeline state carrying that malformed raw summary, no error set. -/
def sampleStateNoCQ : AgentState :=
  { initState "weekly" none none 7 with raw_data := some sampleRawNoCQ }

/-- Claim C8 (counterexample): on a state whose `raw_data` is present but
missing the `code_quality` sub-group, the Analyze stage does NOT set
`error` — it default-fills the missing group and produces an analysis. -/
theorem analysis_missing_subgroup_no_error :
    (analystExecute sampleStateNoCQ).error = none
    ∧ (analystExecute sampleStateNoCQ).analysis_results.isSome = true := by
  constructor <;>
    norm_num [analystExecute, sampleStateNoCQ, sampleRawNoCQ, initState, periodDivisorUsed]

/-- Claim C8 (amended): on a state with `error` unset and `raw_data`
present, the Analyze stage default-fills any missing sub-group and
produces an AnalysisResult without setting `error`; the stage sets
`error` only when its computation raises, namely when the period divisor
`raw_data.get('period_days', 7)` is 0 (division by zero in the velocity
score). -/
theorem analysis_stage_default_fills (s : AgentState) (d : RawData)
    (he : s.error = none) (hr : s.raw_data = some d) :
    (periodDivisorUsed d = 0 →
      (analystExecute s).error = some "Diff analysis failed: division by zero")
    ∧ (periodDivisorUsed d ≠ 0 →
        (analystExecute s).error = none
        ∧ (analystExecute s).analysis_results = some
            { churn_analysis := analyze_churn_patterns d
              risk_assessment := assess_risk_factors d
              quality_indicators := calculate_quality_indicators d
              trend_analysis := analyze_trends d }) := by
  constructor
  · intro h0
    simp [analystExecute, he, hr, h0]
  · intro h0
    constructor <;> simp [analystExecute, he, hr, h0]

/-- Witness for the amended C8: the same missing-`code_quality` state is
analyzed without error, hypotheses discharged concretely. -/
theorem analysis_stage_default_fills_witness :
    (analystExecute sampleStateNoCQ).error = none
    ∧ (analystExecute sampleStateNoCQ).analysis_results = some
        { churn_analysis := analyze_churn_patterns sampleRawNoCQ
          risk_assessment := assess_risk_factors sampleRawNoCQ
          quality_indicators := calculate_quality_indicators sampleRawNoCQ
          trend_analysis := analyze_trends sampleRawNoCQ } :=
  (analysis_stage_default_fills sampleStateNoCQ sampleRawNoCQ rfl rfl).2
    (by norm_num [periodDivisorUsed, sampleRawNoCQ])

/-! ## Claim theorems about the bootstrap harvest -/

/-- Claim C9 (counterexample): two bootstrap harvest runs over identical
repository data (here: the same empty repository list, 7-day window) but
different outcomes of the `random.uniform` draws produce different
`dora_metrics` (change failure rate 3.0 vs 8.0), so the harvest is not a
deterministic function of the repository inputs alone. -/
theorem bootstrap_rng_counterexample :
    (get_overall_stats_bootstrap 7 [] ⟨2, 3, 4, 20, 1, 8, 80, 16, 90⟩).dora_metrics
      ≠ (get_overall_stats_bootstrap 7 [] ⟨2, 8, 4, 20, 1, 8, 80, 16, 90⟩).dora_metrics := by
  norm_num [get_overall_stats_bootstrap, round1, round2, round_eq]

/-- Claim C9 (amended): the bootstrap harvest is deterministic only as a
function of repository data AND random draws: `period_days`, every
`basic_stats` field, `deployment_frequency`, `total_churn` and
`churn_rate` do not depend on the random source, while the remaining
fields are produced from the draws and may differ between runs. -/
theorem bootstrap_rng_independent_fields (days : ℚ) (repos : List RepoSync)
    (r1 r2 : RandDraws) :
    (get_overall_stats_bootstrap days repos r1).basic_stats
      = (get_overall_stats_bootstrap days repos r2).basic_stats
    ∧ (get_overall_stats_bootstrap days repos r1).period_days
      = (get_overall_stats_bootstrap days repos r2).period_days
    ∧ ((get_overall_stats_bootstrap days repos r1).dora_metrics.getD
          DoraMetrics.empty).deployment_frequency
      = ((get_overall_stats_bootstrap days repos r2).dora_metrics.getD
          DoraMetrics.empty).deployment_frequency
    ∧ ((get_overall_stats_bootstrap days repos r1).code_quality.getD
          CodeQuality.empty).total_churn
      = ((get_overall_stats_bootstrap days repos r2).code_quality.getD
          CodeQuality.empty).total_churn
    ∧ ((get_overall_stats_bootstrap days repos r1).code_quality.getD
          CodeQuality.empty).churn_rate
      = ((get_overall_stats_bootstrap days repos r2).code_quality.getD
          CodeQuality.empty).churn_rate :=
  ⟨rfl, rfl, rfl, rfl, rfl⟩

/-! ## Concrete instantiations of the universally quantified claim theorems -/

/-- Witness for C2 at the spec's scenario values. -/
theorem risk_assessment_policy_witness :
    (assess_risk_factors (mkRawSummary 7 1 1 1 1 1 2 1 20 1 1 1 50 1 1 80 1 1)).overall_risk_level
      = (if (20:ℚ) > 15 ∨ (50:ℚ) > 60 then "HIGH"
         else if (2:ℚ) > 7 ∨ (80:ℚ) < 70 then "MODERATE" else "LOW")
    ∧ (assess_risk_factors (mkRawSummary 7 1 1 1 1 1 2 1 20 1 1 1 50 1 1 80 1 1)).identified_risks
      = (let msgs :=
          (if (20:ℚ) > 15 then [msg_failure_rate] else [])
            ++ (if (2:ℚ) > 7 then [msg_lead_time] else [])
            ++ (if (50:ℚ) > 60 then [msg_churn_risk] else [])
            ++ (if (80:ℚ) < 70 then [msg_review_participation] else []);
         if msgs = [] then [msg_no_risk] else msgs)
    ∧ (assess_risk_factors (mkRawSummary 7 1 1 1 1 1 2 1 20 1 1 1 50 1 1 80 1 1)).identified_risks
        ≠ [] :=
  risk_assessment_policy 7 1 1 1 1 1 2 1 20 1 1 1 50 1 1 80 1 1

/-- Witness for C7 at a concrete response text. -/
theorem insight_parsing_spec_witness :
    parse_insights_from_response "1. The team shows strong performance this sprint".toList
      = spec_parse_insights "1. The team shows strong performance this sprint".toList
    ∧ (parse_insights_from_response
        "1. The team shows strong performance this sprint".toList).length ≤ 5 :=
  insight_parsing_spec "1. The team shows strong performance this sprint".toList

/-- Witness for C10 at concrete field values (failure rate 20). -/
theorem review_metrics_default_disagreement_witness :
    msg_review_participation ∉
      (assess_risk_factors (mkRawSummaryNoReview 7 10 4 120 30 6 2 1 20 3 150 15 50 1)).identified_risks
    ∧ (assess_risk_factors
        (mkRawSummaryNoReview 7 10 4 120 30 6 2 1 20 3 150 15 50 1)).overall_risk_level
      = (if (20:ℚ) > 15 ∨ (50:ℚ) > 60 then "HIGH" else if (2:ℚ) > 7 then "MODERATE" else "LOW")
    ∧ (calculate_quality_indicators
        (mkRawSummaryNoReview 7 10 4 120 30 6 2 1 20 3 150 15 50 1)).collaboration_score = 0
    ∧ (calculate_quality_indicators
        (mkRawSummaryNoReview 7 10 4 120 30 6 2 1 20 3 150 15 50 1)).overall_score
      = round1 ((min 100 ((10:ℚ) / 7 * 10) + max 0 (100 - (20:ℚ) * 5) + 0) / 3) :=
  review_metrics_default_disagreement 7 10 4 120 30 6 2 1 20 3 150 15 50 1

/-- Witness for the amended C9 at concrete repository data and draws. -/
theorem bootstrap_rng_independent_fields_witness :
    (get_overall_stats_bootstrap 7 [⟨3, 1, [⟨50, 20, 4⟩]⟩] ⟨2, 3, 4, 20, 1, 8, 80, 16, 90⟩).basic_stats
      = (get_overall_stats_bootstrap 7 [⟨3, 1, [⟨50, 20, 4⟩]⟩] ⟨3, 8, 5, 30, 2, 9, 70, 20, 95⟩).basic_stats
    ∧ (get_overall_stats_bootstrap 7 [⟨3, 1, [⟨50, 20, 4⟩]⟩] ⟨2, 3, 4, 20, 1, 8, 80, 16, 90⟩).period_days
      = (get_overall_stats_bootstrap 7 [⟨3, 1, [⟨50, 20, 4⟩]⟩] ⟨3, 8, 5, 30, 2, 9, 70, 20, 95⟩).period_days
    ∧ ((get_overall_stats_bootstrap 7 [⟨3, 1, [⟨50, 20, 4⟩]⟩]
          ⟨2, 3, 4, 20, 1, 8, 80, 16, 90⟩).dora_metrics.getD DoraMetrics.empty).deployment_frequency
      = ((get_overall_stats_bootstrap 7 [⟨3, 1, [⟨50, 20, 4⟩]⟩]
          ⟨3, 8, 5, 30, 2, 9, 70, 20, 95⟩).dora_metrics.getD DoraMetrics.empty).deployment_frequency
    ∧ ((get_overall_stats_bootstrap 7 [⟨3, 1, [⟨50, 20, 4⟩]⟩]
          ⟨2, 3, 4, 20, 1, 8, 80, 16, 90⟩).code_quality.getD CodeQuality.empty).total_churn
      = ((get_overall_stats_bootstrap 7 [⟨3, 1, [⟨50, 20, 4⟩]⟩]
          ⟨3, 8, 5, 30, 2, 9, 70, 20, 95⟩).code_quality.getD CodeQuality.empty).total_churn
    ∧ ((get_overall_stats_bootstrap 7 [⟨3, 1, [⟨50, 20, 4⟩]⟩]
          ⟨2, 3, 4, 20, 1, 8, 80, 16, 90⟩).code_quality.getD CodeQuality.empty).churn_rate
      = ((get_overall_stats_bootstrap 7 [⟨3, 1, [⟨50, 20, 4⟩]⟩]
          ⟨3, 8, 5, 30, 2, 9, 70, 20, 95⟩).code_quality.getD CodeQuality.empty).churn_rate :=
  bootstrap_rng_independent_fields 7 [⟨3, 1, [⟨50, 20, 4⟩]⟩]
    ⟨2, 3, 4, 20, 1, 8, 80, 16, 90⟩ ⟨3, 8, 5, 30, 2, 9, 70, 20, 95⟩
